import Mathlib

/-
Shallow embedding of pangeo_forge_recipes/openers.py (the repository file
src/pangeo_forge_recipes/openers.py) and proofs about its behaviour.

Machine model: Python values relevant to the module are embedded as an
inductive `PyVal`; Python dicts are insertion-ordered association lists with
the usual replace-on-insert semantics; a raised Python exception is the
`error` constructor of `PyResult`.  External collaborators (fsspec, the
cache store, the kerchunk scanners, xarray) are passed in as explicit
function parameters, exactly as the spec treats them: opaque black boxes
whose outputs the module consumes.
-/

namespace Openers

/-- Scalar Python values appearing inside list-valued arguments.  The module
under study only ever subscripts flat lists, so list elements are scalars. -/
inductive PyScalar where
  | vnone
  | vint (n : Int)
  | vstr (s : String)
deriving DecidableEq

/-- Python values passed around by openers.py: None, ints, strings and flat
lists.  These are the values that appear as option arguments and as entries
of reference mappings in this module. -/
inductive PyVal where
  | none
  | int (n : Int)
  | str (s : String)
  | list (xs : List PyScalar)
deriving DecidableEq

/-- Embed a scalar back into `PyVal` (the result of subscripting a list). -/
def PyScalar.lift : PyScalar → PyVal
  | .vnone => PyVal.none
  | .vint n => PyVal.int n
  | .vstr s => PyVal.str s

/-- The file types of `FileType` (closed enumeration).  Modelled from the
spec: the enum itself lives in the repository module `patterns.py`, which is
not under src/; the spec fixes its members as
netcdf3, netcdf4, zarr, grib, opendap, unknown. -/
inductive FileType where
  | netcdf3
  | netcdf4
  | zarr
  | grib
  | opendap
  | unknown
deriving DecidableEq

/-- Python exceptions raised (or reachable) in openers.py.  Each constructor
records the data the corresponding `raise` site interpolates into its
message, as structured fields rather than as formatted text.
`unsupportedFileType` is modelled from the spec: the spec error taxonomy
names a dedicated `UnsupportedFileType` error for ReferenceBuilder, but no
such raise exists anywhere in openers.py; the constructor exists only so
that statements can distinguish that hypothetical error from what the code
actually raises. -/
inductive PyErr where
  | keyError (ft : FileType)
  | engineMismatch (ft : FileType) (canonical : String) (passed : PyVal)
  | fsstoreWrongType (ft : FileType)
  | copyWrongType (ft : FileType)
  | copyStrUrl
  | typeError (ty : String)
  | attributeError (obj attr : String)
  | nameError (n : String)
  | indexError
  | unsupportedFileType (ft : FileType)
deriving DecidableEq

/-- Whether an exception is a TypeError or an AttributeError. -/
def PyErr.isTypeOrAttr : PyErr → Bool
  | .typeError _ => true
  | .attributeError _ _ => true
  | _ => false

/-- Result of running a piece of Python code: a value or a raised exception. -/
inductive PyResult (α : Type) where
  | ok (val : α)
  | error (err : PyErr)
deriving DecidableEq

/-- Warnings emitted via warnings.warn in openers.py, with the data each
message interpolates. -/
inductive Warn where
  | autoDetectEngine
  | redundantEngine (ft : FileType) (canonical : String) (passed : PyVal)
  | localCopyNotLoaded
deriving DecidableEq

/-- A Python dict with string keys: insertion-ordered association list. -/
abbrev PyDict := List (String × PyVal)

/-- Python d[k] / `k in d` lookup over the association list. -/
def dictLookup : PyDict → String → Option PyVal
  | [], _ => Option.none
  | (k', v) :: rest, k => if k' = k then some v else dictLookup rest k

/-- Python d[k] = v: replace the value of an existing key in place, else
append the new pair at the end (dict insertion order). -/
def dictInsert : PyDict → String → PyVal → PyDict
  | [], k, v => [(k, v)]
  | (k', v') :: rest, k, v =>
      if k' = k then (k, v) :: rest else (k', v') :: dictInsert rest k v

/-- Python d.update(other): insert every entry of other into d, in order. -/
def dictUpdate (d other : PyDict) : PyDict :=
  other.foldl (fun acc kv => dictInsert acc kv.1 kv.2) d

/-- OPENER_MAP of openers.py, which has entries only for netcdf3, netcdf4
and zarr.  Each source entry is the one-key dict dict(engine=e); the map is
modelled by that engine string e.  Lookup of any other file type raises
KeyError in the source. -/
def OPENER_MAP : FileType → Option String
  | .netcdf3 => some "scipy"
  | .netcdf4 => some "h5netcdf"
  | .zarr => some "zarr"
  | _ => Option.none

/-- The function _set_engine(file_type, xr_open_kwargs) of openers.py.
Returns the pair of (result-or-exception, warnings emitted).  Branches, in
source order: unknown type warns when no engine is given; a present engine
key first forces evaluation of the message f-strings (which subscript
OPENER_MAP and hence raise KeyError for file types missing from it), then
warns on a matching engine and raises ValueError on a mismatch; otherwise
kw.update(OPENER_MAP[file_type]) inserts the canonical engine (again
KeyError when the file type is missing from OPENER_MAP). -/
def set_engine (file_type : FileType) (xr_open_kwargs : PyDict) :
    PyResult PyDict × List Warn :=
  let kw := xr_open_kwargs
  if file_type = FileType.unknown then
    match dictLookup kw "engine" with
    | Option.none => (.ok kw, [Warn.autoDetectEngine])
    | some _ => (.ok kw, [])
  else
    match dictLookup kw "engine" with
    | some passed =>
      match OPENER_MAP file_type with
      | Option.none => (.error (.keyError file_type), [])
      | some canonical =>
        if passed = PyVal.str canonical then
          (.ok kw, [Warn.redundantEngine file_type canonical passed])
        else
          (.error (.engineMismatch file_type canonical passed), [])
    | Option.none =>
      match OPENER_MAP file_type with
      | Option.none => (.error (.keyError file_type), [])
      | some canonical => (.ok (dictInsert kw "engine" (PyVal.str canonical)), [])

/-- The url_or_file_obj argument accepted by open_with_kerchunk and
open_with_xarray, as a tagged variant over the isinstance / hasattr checks
the source performs: a plain string URL, a zarr FSStore, an io.IOBase
file-like object, a non-IOBase object exposing an open() method (the fsspec
work-around branch), or any other handle.  File-like handles carry an
optional path attribute (fsspec openers expose one; other objects may not). -/
inductive UrlOrFileObj where
  | str (url : String)
  | fsstore (id : String)
  | iobase (id : String) (path : Option String)
  | withOpen (id : String) (path : Option String)
  | plain (id : String) (path : Option String)
deriving DecidableEq

/-- Whether the handle is a plain string URL (isinstance(x, str)). -/
def UrlOrFileObj.isStr : UrlOrFileObj → Bool
  | .str _ => true
  | _ => false

/-- Whether the handle is a zarr FSStore (isinstance(x, zarr.storage.FSStore)). -/
def UrlOrFileObj.isFSStore : UrlOrFileObj → Bool
  | .fsstore _ => true
  | _ => false

/-- Python attribute access x.path, used by the netcdf4 branch of
open_with_kerchunk.  A plain string has no path attribute; the FSStore case
is unreachable in that branch because normalization rejects an FSStore for
every file type other than zarr and the zarr type never dispatches to the
HDF5 scanner, so its value is immaterial. -/
def UrlOrFileObj.getPath : UrlOrFileObj → PyResult String
  | .str _ => .error (.attributeError "str" "path")
  | .fsstore _ => .error (.attributeError "FSStore" "path")
  | .iobase _ p => p.elim (.error (.attributeError "file" "path")) .ok
  | .withOpen _ p => p.elim (.error (.attributeError "file" "path")) .ok
  | .plain _ p => p.elim (.error (.attributeError "file" "path")) .ok

/-- The source-normalization block shared verbatim by open_with_kerchunk
(lines 103-114) and open_with_xarray (lines 201-212): strings pass through;
an FSStore is rejected with ValueError unless the file type is zarr;
io.IOBase objects pass through; any other object with an open attribute is
replaced by the result of calling open() on it (a file-like object). -/
def normalizeSource (src : UrlOrFileObj) (file_type : FileType) :
    PyResult UrlOrFileObj :=
  match src with
  | .str u => .ok (.str u)
  | .fsstore i =>
      if file_type = FileType.zarr then .ok (.fsstore i)
      else .error (.fsstoreWrongType file_type)
  | .iobase i p => .ok (.iobase i p)
  | .withOpen i p => .ok (.iobase i p)
  | .plain i p => .ok (.plain i p)

/-- Python x[0] on an option value: lists yield their first element (or
IndexError when empty), strings yield their first character (or IndexError),
None and ints are not subscriptable and raise TypeError. -/
def pySubscript0 : PyVal → PyResult PyVal
  | PyVal.none => .error (.typeError "NoneType")
  | .int _ => .error (.typeError "int")
  | .str s => if s = "" then .error .indexError else .ok (.str (s.take 1))
  | .list [] => .error .indexError
  | .list (x :: _) => .ok x.lift

/-- A kerchunk reference object, as openers.py manipulates it: the "refs"
sub-dict of per-chunk entries, and the "templates" sub-dict, which when
present is the one-entry dict written at lines 152 and 156 (placeholder
token mapped to the url_or_file_obj in use).  These are the only keys the
module reads or writes on a reference object. -/
structure RefMapping where
  refs : PyDict
  templates : Option (String × UrlOrFileObj) := Option.none
deriving DecidableEq

/-- Consolidation of GRIB per-message reference mappings, openers.py lines
149-162.  An empty scan result raises IndexError at grib_references[0].  A
single message gets a templates entry and is returned as is.  Otherwise the
first mapping is copied, given the templates entry, and every later
mapping's refs dict is merged in with dict.update. -/
def consolidateGrib (url : UrlOrFileObj) : List RefMapping → PyResult RefMapping
  | [] => .error PyErr.indexError
  | [r] => .ok ⟨r.refs, some ("u", url)⟩
  | r :: rest =>
      .ok ⟨rest.foldl (fun acc o => dictUpdate acc o.refs) r.refs, some ("u", url)⟩

/-- Which kerchunk scanner class or function open_with_kerchunk invoked. -/
inductive ScannerCall where
  | hdf5
  | netcdf3
  | grib
deriving DecidableEq

/-- The kerchunk scanners, external collaborators of open_with_kerchunk.
singleHdf5ToZarr models SingleHdf5ToZarr(obj, path, inline_threshold,
storage_options).translate(); netCDF3ToZarr models NetCDF3ToZarr(url,
inline_threshold, max_chunk_size, storage_options).translate(); scanGrib
models scan_grib(url, inline_threshold, filter, storage_options), which
returns a list of per-message reference mappings. -/
structure Scanners where
  singleHdf5ToZarr : UrlOrFileObj → String → PyVal → PyVal → RefMapping
  netCDF3ToZarr : UrlOrFileObj → PyVal → PyVal → PyVal → RefMapping
  scanGrib : UrlOrFileObj → PyVal → PyVal → PyVal → List RefMapping

/-- Outcome of open_with_kerchunk: the returned reference object or the
raised exception, together with the list of scanner invocations performed. -/
structure KerchunkOutcome where
  result : PyResult RefMapping
  scannerCalls : List ScannerCall
deriving DecidableEq

/-- The function open_with_kerchunk of openers.py (lines 86-162), with the
scanners abstracted as collaborators and the defaults of the source
signature (file_type=unknown, inline_threshold=100,
netcdf3_max_chunk_size=100000000, storage_options=None, grib_filters=None).
Each dispatch branch evaluates its scanner arguments left to right before
the scanner runs, so inline_threshold[0], netcdf3_max_chunk_size[0],
storage_options[0], grib_filters[0] and url_or_file_obj.path can each raise
first.  File types with no dispatch branch fall through to the final
`return ref` with the local variable ref never assigned, which raises
NameError. -/
def open_with_kerchunk (cs : Scanners) (url_or_file_obj : UrlOrFileObj)
    (file_type : FileType := FileType.unknown)
    (inline_threshold : PyVal := PyVal.int 100)
    (netcdf3_max_chunk_size : PyVal := PyVal.int 100000000)
    (storage_options : PyVal := PyVal.none)
    (grib_filters : PyVal := PyVal.none) : KerchunkOutcome :=
  match normalizeSource url_or_file_obj file_type with
  | .error e => ⟨.error e, []⟩
  | .ok obj =>
    match file_type with
    | FileType.netcdf4 =>
      match obj.getPath with
      | .error e => ⟨.error e, []⟩
      | .ok path =>
        match pySubscript0 inline_threshold with
        | .error e => ⟨.error e, []⟩
        | .ok it =>
          match pySubscript0 storage_options with
          | .error e => ⟨.error e, []⟩
          | .ok so => ⟨.ok (cs.singleHdf5ToZarr obj path it so), [ScannerCall.hdf5]⟩
    | FileType.netcdf3 =>
      match pySubscript0 inline_threshold with
      | .error e => ⟨.error e, []⟩
      | .ok it =>
        match pySubscript0 netcdf3_max_chunk_size with
        | .error e => ⟨.error e, []⟩
        | .ok mx =>
          match pySubscript0 storage_options with
          | .error e => ⟨.error e, []⟩
          | .ok so => ⟨.ok (cs.netCDF3ToZarr obj it mx so), [ScannerCall.netcdf3]⟩
    | FileType.grib =>
      match pySubscript0 inline_threshold with
      | .error e => ⟨.error e, []⟩
      | .ok it =>
        match pySubscript0 grib_filters with
        | .error e => ⟨.error e, []⟩
        | .ok fl =>
          match pySubscript0 storage_options with
          | .error e => ⟨.error e, []⟩
          | .ok so =>
            match consolidateGrib obj (cs.scanGrib obj it fl so) with
            | .error e => ⟨.error e, [ScannerCall.grib]⟩
            | .ok r => ⟨.ok r, [ScannerCall.grib]⟩
    | _ => ⟨.error (.nameError "ref"), []⟩

/-- A call made by open_url to its storage collaborators, in the order the
source performs them: cache.cache_file(url, secrets, **kw),
cache.open_file(url, mode="rb"), or _get_opener(url, secrets, **kw). -/
inductive FsCall where
  | cacheFile (url : String) (secrets : PyVal) (kw : PyDict)
  | openFile (url : String) (mode : String)
  | getOpener (url : String) (secrets : PyVal) (kw : PyDict)
deriving DecidableEq

/-- The cache collaborator (CacheFSSpecTarget lives in the repository module
storage.py, not under src/): its observable open_file output.  The
cache_file prefetch is pure side effect; the call log records it. -/
structure CacheObj where
  openFileResult : String → String → UrlOrFileObj

/-- The filesystem collaborator: the handle that _get_opener(url, secrets,
**kw) produces (storage.py, not under src/). -/
structure FsEnv where
  getOpenerResult : String → PyVal → PyDict → UrlOrFileObj

/-- The function open_url of openers.py (lines 15-35): with a cache, first
cache_file(url, secrets, **kw) and then open_file(url, mode="rb"), whose
handle is returned; without a cache, the handle comes straight from
_get_opener(url, secrets, **kw).  The second component is the ordered log
of collaborator calls. -/
def open_url (fs : FsEnv) (url : String)
    (cache : Option CacheObj := Option.none)
    (secrets : PyVal := PyVal.none)
    (open_kwargs : Option PyDict := Option.none) :
    UrlOrFileObj × List FsCall :=
  let kw := open_kwargs.getD []
  match cache with
  | some c =>
      (c.openFileResult url "rb",
       [FsCall.cacheFile url secrets kw, FsCall.openFile url "rb"])
  | Option.none =>
      (fs.getOpenerResult url secrets kw, [FsCall.getOpener url secrets kw])

/-- The xarray Dataset returned by open_with_xarray, as far as the module
observes it: what was handed to xr.open_dataset and whether ds.load() ran. -/
structure Dataset where
  source : UrlOrFileObj
  kwargs : PyDict
  loaded : Bool
deriving DecidableEq

/-- Outcome of open_with_xarray: its return value or raised exception, the
warnings emitted during the call, and whether the tempfile.NamedTemporaryFile
for the local copy was ever created. -/
structure XarrayOutcome where
  result : PyResult Dataset
  warns : List Warn
  tempFileCreated : Bool
deriving DecidableEq

/-- The membership list of the copy_to_local guard, openers.py line 189.
The source writes `[FileType.zarr or FileType.opendap]`; Python `or`
returns its first truthy operand, FileType.zarr, so the evaluated list has
the single element FileType.zarr and opendap is not in it. -/
def copyExcludedTypes : List FileType := [FileType.zarr]

/-- The function open_with_xarray of openers.py (lines 165-223).  Steps, in
source order: kw = xarray_open_kwargs or {}; kw = _set_engine(file_type,
kw); the copy_to_local block (guard by copyExcludedTypes, rejection of
string URLs, then creation of a named temporary file whose path replaces
the source handle — the byte copy _copy_btw_filesystems is an external
collaborator, modelled as succeeding); source normalization; xr.open_dataset
(modelled as constructing the observable Dataset record); optional eager
ds.load(); and the copied-but-not-loaded advisory warning.  tmpName stands
for the process-unique name tempfile.NamedTemporaryFile produced. -/
def open_with_xarray (tmpName : String) (url_or_file_obj : UrlOrFileObj)
    (file_type : FileType := FileType.unknown)
    (load : Bool := false)
    (copy_to_local : Bool := false)
    (xarray_open_kwargs : Option PyDict := Option.none) : XarrayOutcome :=
  let kw0 := xarray_open_kwargs.getD []
  match set_engine file_type kw0 with
  | (.error e, ws) => ⟨.error e, ws, false⟩
  | (.ok kw, ws) =>
    let copyStep : PyResult (UrlOrFileObj × Bool) :=
      if copy_to_local then
        if file_type ∈ copyExcludedTypes then .error (.copyWrongType file_type)
        else if url_or_file_obj.isStr then .error .copyStrUrl
        else .ok (.str tmpName, true)
      else .ok (url_or_file_obj, false)
    match copyStep with
    | .error e => ⟨.error e, ws, false⟩
    | .ok (src1, tfc) =>
      match normalizeSource src1 file_type with
      | .error e => ⟨.error e, ws, tfc⟩
      | .ok src2 =>
        let ds : Dataset := ⟨src2, kw, load⟩
        let ws2 := ws ++ (if copy_to_local && !load then [Warn.localCopyNotLoaded] else [])
        ⟨.ok ds, ws2, tfc⟩

/-- A heap of dict objects, addressed by position, for stating aliasing
properties of _set_engine: Python dicts are mutable heap objects and the
caller passes one by reference. -/
abbrev DictHeap := List PyDict

/-- The function _set_engine again, at the level of the dict heap: the
argument is the address a of the caller's xr_open_kwargs.  The first
statement kw = xr_open_kwargs.copy() allocates a fresh dict at address
heap.length holding a copy of the contents; every later read and write in
the source (membership tests, kw.update) targets only that fresh address.
Returns (address of kw or exception, warnings, final heap). -/
def set_engine_heap (file_type : FileType) (heap : DictHeap) (a : Nat) :
    PyResult Nat × List Warn × DictHeap :=
  let d := heap.getD a []
  let b := heap.length
  let heap1 := heap ++ [d]
  if file_type = FileType.unknown then
    match dictLookup d "engine" with
    | Option.none => (.ok b, [Warn.autoDetectEngine], heap1)
    | some _ => (.ok b, [], heap1)
  else
    match dictLookup d "engine" with
    | some passed =>
      match OPENER_MAP file_type with
      | Option.none => (.error (.keyError file_type), [], heap1)
      | some canonical =>
        if passed = PyVal.str canonical then
          (.ok b, [Warn.redundantEngine file_type canonical passed], heap1)
        else
          (.error (.engineMismatch file_type canonical passed), [], heap1)
    | Option.none =>
      match OPENER_MAP file_type with
      | Option.none => (.error (.keyError file_type), [], heap1)
      | some canonical =>
          (.ok b, [], heap1.set b (dictInsert d "engine" (PyVal.str canonical)))

/-- The value held, for a key k, by the last mapping of the list whose refs
dict binds k (later mappings take precedence); none when no mapping binds k. -/
def lookupAcross (ms : List RefMapping) (k : String) : Option PyVal :=
  ms.foldl (fun acc r => (dictLookup r.refs k).or acc) Option.none

/-- A scanner bundle whose scanners return empty reference objects; used to
instantiate theorems at concrete inputs on code paths that never reach a
scanner. -/
def scannersNoop : Scanners where
  singleHdf5ToZarr := fun _ _ _ _ => ⟨[], Option.none⟩
  netCDF3ToZarr := fun _ _ _ _ => ⟨[], Option.none⟩
  scanGrib := fun _ _ _ _ => []

/-- A scanner bundle whose GRIB scanner yields two per-message mappings that
collide on the key a: the first message maps it to the string first, the
second to the string second. -/
def scannersTwoMsgCollide : Scanners where
  singleHdf5ToZarr := fun _ _ _ _ => ⟨[], Option.none⟩
  netCDF3ToZarr := fun _ _ _ _ => ⟨[], Option.none⟩
  scanGrib := fun _ _ _ _ =>
    [⟨[("a", PyVal.str "first")], Option.none⟩,
     ⟨[("a", PyVal.str "second")], Option.none⟩]

/-- A scanner bundle whose GRIB scanner yields three per-message mappings
with pairwise disjoint keys. -/
def scannersThreeDisjoint : Scanners where
  singleHdf5ToZarr := fun _ _ _ _ => ⟨[], Option.none⟩
  netCDF3ToZarr := fun _ _ _ _ => ⟨[], Option.none⟩
  scanGrib := fun _ _ _ _ =>
    [⟨[("a", PyVal.int 1)], Option.none⟩,
     ⟨[("b", PyVal.int 2)], Option.none⟩,
     ⟨[("c", PyVal.int 3)], Option.none⟩]

/-- A filesystem collaborator whose opener yields a file-like handle with no
path attribute; used to instantiate end-to-end theorems concretely. -/
def fsEnvFileHandle : FsEnv where
  getOpenerResult := fun _ _ _ => UrlOrFileObj.iobase "f" Option.none

theorem dictLookup_insert (d : PyDict) (k k2 : String) (v : PyVal) :
    dictLookup (dictInsert d k v) k2 =
      if k = k2 then some v else dictLookup d k2 := by
  induction d with
  | nil => simp [dictInsert, dictLookup]
  | cons p rest ih =>
    obtain ⟨k', v'⟩ := p
    by_cases h : k' = k
    · by_cases h2 : k = k2 <;> simp [dictInsert, dictLookup, h, h2]
    · have hne : ¬ k = k' := fun hh => h hh.symm
      by_cases h2 : k' = k2
      · subst h2
        simp [dictInsert, dictLookup, h, hne]
      · simp [dictInsert, dictLookup, h, h2, ih]

theorem dictLookup_eq_none (d : PyDict) (k : String)
    (h : k ∉ d.map Prod.fst) : dictLookup d k = Option.none := by
  induction d with
  | nil => rfl
  | cons p rest ih =>
    obtain ⟨k', v'⟩ := p
    simp only [List.map_cons, List.mem_cons] at h
    push_neg at h
    have hne : ¬ k' = k := fun hh => h.1 hh.symm
    simp [dictLookup, hne, ih h.2]

theorem dictInsert_of_not_mem (d : PyDict) (k : String) (v : PyVal)
    (h : k ∉ d.map Prod.fst) : dictInsert d k v = d ++ [(k, v)] := by
  induction d with
  | nil => rfl
  | cons p rest ih =>
    obtain ⟨k', v'⟩ := p
    simp only [List.map_cons, List.mem_cons] at h
    push_neg at h
    have hne : ¬ k' = k := fun hh => h.1 hh.symm
    simp [dictInsert, hne, ih h.2]

theorem dictLookup_update (a b : PyDict) (k : String)
    (hb : (b.map Prod.fst).Nodup) :
    dictLookup (dictUpdate a b) k = (dictLookup b k).or (dictLookup a k) := by
  induction b generalizing a with
  | nil => simp [dictUpdate, dictLookup]
  | cons p rest ih =>
    obtain ⟨k1, v1⟩ := p
    simp only [List.map_cons, List.nodup_cons] at hb
    have step : dictUpdate a ((k1, v1) :: rest) =
        dictUpdate (dictInsert a k1 v1) rest := rfl
    rw [step, ih _ hb.2]
    by_cases hk : k1 = k
    · subst hk
      rw [dictLookup_eq_none rest k1 hb.1]
      simp [dictLookup, dictLookup_insert]
    · simp [dictLookup, hk, dictLookup_insert]

theorem dictLookup_foldl_update (rest : List RefMapping) (a : PyDict) (k : String)
    (h : ∀ r ∈ rest, (r.refs.map Prod.fst).Nodup) :
    dictLookup (rest.foldl (fun acc o => dictUpdate acc o.refs) a) k =
      rest.foldl (fun acc r => (dictLookup r.refs k).or acc) (dictLookup a k) := by
  induction rest generalizing a with
  | nil => rfl
  | cons r rest ih =>
    have hr : (r.refs.map Prod.fst).Nodup := h r (by simp)
    have h' : ∀ x ∈ rest, (x.refs.map Prod.fst).Nodup := fun x hx => h x (by simp [hx])
    show dictLookup (rest.foldl _ (dictUpdate a r.refs)) k = _
    rw [ih _ h', dictLookup_update a r.refs k hr]
    rfl

theorem dictUpdate_eq_append (a b : PyDict)
    (hb : (b.map Prod.fst).Nodup)
    (hd : ∀ k ∈ b.map Prod.fst, k ∉ a.map Prod.fst) :
    dictUpdate a b = a ++ b := by
  induction b generalizing a with
  | nil => simp [dictUpdate]
  | cons p rest ih =>
    simp only [List.map_cons, List.nodup_cons] at hb
    have step : dictUpdate a (p :: rest) = dictUpdate (dictInsert a p.1 p.2) rest := rfl
    rw [step, dictInsert_of_not_mem a p.1 p.2 (hd p.1 (by simp))]
    rw [ih (a ++ [(p.1, p.2)]) hb.2]
    · simp
    · intro k hk
      simp only [List.map_append, List.mem_append, List.map_cons, List.map_nil,
        List.mem_singleton]
      push_neg
      refine ⟨hd k (by simp [hk]), ?_⟩
      intro hkp
      exact hb.1 (hkp ▸ hk)

theorem foldl_update_eq_append (ms : List RefMapping) (a : PyDict)
    (hn : ∀ r ∈ ms, (r.refs.map Prod.fst).Nodup)
    (ha : ∀ r ∈ ms, ∀ k ∈ r.refs.map Prod.fst, k ∉ a.map Prod.fst)
    (hp : ms.Pairwise (fun x y => ∀ k ∈ y.refs.map Prod.fst, k ∉ x.refs.map Prod.fst)) :
    ms.foldl (fun acc o => dictUpdate acc o.refs) a = a ++ (ms.map RefMapping.refs).flatten := by
  induction ms generalizing a with
  | nil => simp
  | cons r rest ih =>
    rw [List.pairwise_cons] at hp
    have hr : (r.refs.map Prod.fst).Nodup := hn r (by simp)
    have har : ∀ k ∈ r.refs.map Prod.fst, k ∉ a.map Prod.fst := ha r (by simp)
    show (rest.foldl _ (dictUpdate a r.refs)) = _
    rw [dictUpdate_eq_append a r.refs hr har]
    rw [ih (a ++ r.refs) (fun x hx => hn x (by simp [hx])) ?_ hp.2]
    · simp
    · intro x hx k hk
      simp only [List.map_append, List.mem_append]
      push_neg
      exact ⟨ha x (by simp [hx]) k hk, hp.1 x hx k hk⟩

theorem lookupAcross_cons (m : RefMapping) (rest : List RefMapping) (k : String) :
    lookupAcross (m :: rest) k =
      rest.foldl (fun acc r => (dictLookup r.refs k).or acc) (dictLookup m.refs k) := by
  show rest.foldl _ ((dictLookup m.refs k).or Option.none) = _
  cases dictLookup m.refs k <;> rfl

theorem set_append_length_set {α : Type} (l : List α) (d x : α) :
    (l ++ [d]).set l.length x = l ++ [x] := by
  induction l with
  | nil => rfl
  | cons h t ih => simp [List.set, ih]

/-- Claim C2, counterexample: grib and opendap are known FileTypes, yet
_set_engine with no explicit engine raises KeyError for both (OPENER_MAP has
no entry for them), instead of succeeding with a canonical engine inserted. -/
theorem set_engine_grib_opendap_keyerror :
    set_engine FileType.grib [] = (.error (.keyError FileType.grib), []) ∧
    set_engine FileType.opendap [] = (.error (.keyError FileType.opendap), []) := by
  decide

/-- Claim C2 (amended): for the file types that OPENER_MAP does cover
(netcdf3, netcdf4, zarr), _set_engine called without an explicit engine
succeeds and returns the options with exactly that canonical engine
inserted, emitting no warning; for the other known file types (grib,
opendap), which have no OPENER_MAP entry, the same call raises KeyError. -/
theorem set_engine_known_types_resolution :
    (∀ (ft : FileType) (kw : PyDict) (e : String),
      OPENER_MAP ft = some e → dictLookup kw "engine" = Option.none →
      set_engine ft kw = (.ok (dictInsert kw "engine" (PyVal.str e)), [])) ∧
    (∀ (ft : FileType) (kw : PyDict),
      ft ≠ FileType.unknown → OPENER_MAP ft = Option.none →
      dictLookup kw "engine" = Option.none →
      set_engine ft kw = (.error (.keyError ft), [])) := by
  constructor
  · intro ft kw e hft hk
    have hne : ¬ ft = FileType.unknown := by
      rintro rfl
      simp [OPENER_MAP] at hft
    simp [set_engine, hne, hk, hft]
  · intro ft kw hne hft hk
    simp [set_engine, hne, hk, hft]

/-- Witness for set_engine_known_types_resolution at FileType.netcdf3. -/
theorem set_engine_known_types_resolution_w :
    set_engine FileType.netcdf3 [] = (.ok [("engine", PyVal.str "scipy")], []) :=
  set_engine_known_types_resolution.1 FileType.netcdf3 [] "scipy" rfl rfl

/-- Claim C5, counterexample: for the known FileTypes grib and opendap, an
explicit engine different from any canonical one makes _set_engine raise
KeyError while formatting its messages (OPENER_MAP has no entry), not an
engine-conflict ValueError carrying both engines. -/
theorem set_engine_grib_opendap_keyerror_with_engine :
    set_engine FileType.grib [("engine", PyVal.str "cfgrib")] =
      (.error (.keyError FileType.grib), []) ∧
    set_engine FileType.opendap [("engine", PyVal.str "netcdf4")] =
      (.error (.keyError FileType.opendap), []) := by
  decide

/-- Claim C5 (amended): for the file types with an OPENER_MAP entry
(netcdf3, netcdf4, zarr), an explicit engine different from the canonical
one makes _set_engine raise the mismatch ValueError carrying both the
canonical engine and the engine the caller passed; for grib and opendap the
same call raises KeyError before the comparison is reached. -/
theorem set_engine_mismatch_conflict :
    (∀ (ft : FileType) (kw : PyDict) (e : String) (passed : PyVal),
      OPENER_MAP ft = some e → dictLookup kw "engine" = some passed →
      passed ≠ PyVal.str e →
      set_engine ft kw = (.error (.engineMismatch ft e passed), [])) ∧
    (∀ (ft : FileType) (kw : PyDict) (passed : PyVal),
      ft ≠ FileType.unknown → OPENER_MAP ft = Option.none →
      dictLookup kw "engine" = some passed →
      set_engine ft kw = (.error (.keyError ft), [])) := by
  constructor
  · intro ft kw e passed hft hk hne
    have hu : ¬ ft = FileType.unknown := by
      rintro rfl
      simp [OPENER_MAP] at hft
    simp [set_engine, hu, hk, hft, hne]
  · intro ft kw passed hu hft hk
    simp [set_engine, hu, hk, hft]

/-- Witness for set_engine_mismatch_conflict at FileType.netcdf4 with the
explicit engine scipy. -/
theorem set_engine_mismatch_conflict_w :
    set_engine FileType.netcdf4 [("engine", PyVal.str "scipy")] =
      (.error (.engineMismatch FileType.netcdf4 "h5netcdf" (PyVal.str "scipy")), []) :=
  set_engine_mismatch_conflict.1 FileType.netcdf4 [("engine", PyVal.str "scipy")]
    "h5netcdf" (PyVal.str "scipy") rfl rfl (by decide)

/-- Claim C10: _set_engine never mutates the caller's options dict.  In the
heap model, every dict address that existed before the call still holds its
original contents afterwards (in particular the caller's xr_open_kwargs at
address a), on every path — success, warning or exception; and a successful
call returns the address of the freshly allocated copy, heap.length, never
an alias of a pre-existing dict. -/
theorem set_engine_does_not_mutate_caller (ft : FileType) (heap : DictHeap)
    (a b : Nat) :
    ((set_engine_heap ft heap a).2.2).take heap.length = heap ∧
    ((set_engine_heap ft heap a).1 = .ok b → b = heap.length) := by
  have htake : (heap ++ [heap.getD a []]).take heap.length = heap :=
    List.take_left heap [heap.getD a []]
  have htake2 : ∀ x : PyDict,
      ((heap ++ [heap.getD a []]).set heap.length x).take heap.length = heap := by
    intro x
    rw [set_append_length_set heap (heap.getD a []) x]
    exact List.take_left heap [x]
  by_cases hu : ft = FileType.unknown
  · cases h1 : dictLookup (heap.getD a []) "engine" <;>
      simp_all [set_engine_heap]
  · cases h1 : dictLookup (heap.getD a []) "engine" with
    | none =>
      cases h2 : OPENER_MAP ft <;> simp_all [set_engine_heap]
    | some passed =>
      cases h2 : OPENER_MAP ft with
      | none => simp_all [set_engine_heap]
      | some canonical =>
        by_cases h3 : passed = PyVal.str canonical <;>
          simp_all [set_engine_heap]

/-- Witness for set_engine_does_not_mutate_caller on a one-dict heap with a
netcdf3 resolution that does insert an engine into the fresh copy. -/
theorem set_engine_does_not_mutate_caller_w :
    ((set_engine_heap FileType.netcdf3 [[("k", PyVal.int 7)]] 0).2.2).take 1 =
      [[("k", PyVal.int 7)]] ∧ (1 : Nat) = 1 := by
  have h := set_engine_does_not_mutate_caller FileType.netcdf3
    [[("k", PyVal.int 7)]] 0 1
  exact ⟨h.1, h.2 (by decide)⟩

/-- Claim C1, counterexample: two GRIB messages both mapping the refs key a
(earlier message to the string first, later to the string second).  The
consolidated mapping holds the later value, so it does not keep the earlier
value as the claim states. -/
theorem grib_consolidation_not_first_writer_wins :
    (open_with_kerchunk scannersTwoMsgCollide (UrlOrFileObj.str "u") FileType.grib
      (PyVal.list [PyScalar.vint 100]) (PyVal.int 100000000)
      (PyVal.list [PyScalar.vnone]) (PyVal.list [PyScalar.vnone])).result =
      .ok ⟨[("a", PyVal.str "second")], some ("u", UrlOrFileObj.str "u")⟩ ∧
    (open_with_kerchunk scannersTwoMsgCollide (UrlOrFileObj.str "u") FileType.grib
      (PyVal.list [PyScalar.vint 100]) (PyVal.int 100000000)
      (PyVal.list [PyScalar.vnone]) (PyVal.list [PyScalar.vnone])).result ≠
      .ok ⟨[("a", PyVal.str "first")], some ("u", UrlOrFileObj.str "u")⟩ := by
  decide

/-- Claim C1 (amended): GRIB consolidation merges each later mapping into
the first with dict.update, which is last-writer-wins on key collision: for
every key, the consolidated mapping holds the value of the last message
whose refs dict binds that key (and the templates entry maps the token u to
the normalized source). -/
theorem grib_consolidation_last_writer_wins
    (cs : Scanners) (src src1 : UrlOrFileObj) (it n3 so gf itv gfv sov : PyVal)
    (m : RefMapping) (rest : List RefMapping) (k : String)
    (hnorm : normalizeSource src FileType.grib = .ok src1)
    (hit : pySubscript0 it = .ok itv)
    (hgf : pySubscript0 gf = .ok gfv)
    (hso : pySubscript0 so = .ok sov)
    (hscan : cs.scanGrib src1 itv gfv sov = m :: rest)
    (hnd : ∀ r ∈ m :: rest, (r.refs.map Prod.fst).Nodup) :
    ∃ out, (open_with_kerchunk cs src FileType.grib it n3 so gf).result = .ok out ∧
      out.templates = some ("u", src1) ∧
      dictLookup out.refs k = lookupAcross (m :: rest) k := by
  have hnd' : ∀ r ∈ rest, (r.refs.map Prod.fst).Nodup :=
    fun r hr => hnd r (by simp [hr])
  cases rest with
  | nil =>
    refine ⟨⟨m.refs, some ("u", src1)⟩, ?_, rfl, ?_⟩
    · simp [open_with_kerchunk, hnorm, hit, hgf, hso, hscan, consolidateGrib]
    · rw [lookupAcross_cons]
      rfl
  | cons r2 rest2 =>
    refine ⟨⟨(r2 :: rest2).foldl (fun acc o => dictUpdate acc o.refs) m.refs,
        some ("u", src1)⟩, ?_, rfl, ?_⟩
    · simp [open_with_kerchunk, hnorm, hit, hgf, hso, hscan, consolidateGrib]
    · rw [dictLookup_foldl_update (r2 :: rest2) m.refs k hnd', lookupAcross_cons]

/-- Witness for grib_consolidation_last_writer_wins at a concrete two-message
scan colliding on the key a: the consolidated value is the second message
value. -/
theorem grib_consolidation_last_writer_wins_w :
    ∃ out, (open_with_kerchunk scannersTwoMsgCollide (UrlOrFileObj.str "u")
      FileType.grib (PyVal.list [PyScalar.vint 100]) (PyVal.int 100000000)
      (PyVal.list [PyScalar.vnone]) (PyVal.list [PyScalar.vnone])).result = .ok out ∧
      out.templates = some ("u", UrlOrFileObj.str "u") ∧
      dictLookup out.refs "a" = some (PyVal.str "second") := by
  obtain ⟨out, h1, h2, h3⟩ := grib_consolidation_last_writer_wins
    scannersTwoMsgCollide (UrlOrFileObj.str "u") (UrlOrFileObj.str "u")
    (PyVal.list [PyScalar.vint 100]) (PyVal.int 100000000)
    (PyVal.list [PyScalar.vnone]) (PyVal.list [PyScalar.vnone])
    (PyVal.int 100) PyVal.none PyVal.none
    ⟨[("a", PyVal.str "first")], Option.none⟩
    [⟨[("a", PyVal.str "second")], Option.none⟩] "a"
    rfl rfl rfl rfl rfl (by decide)
  exact ⟨out, h1, h2, h3.trans (by decide)⟩

/-- Claim C6: when the per-message mappings of a GRIB scan have pairwise
disjoint (and duplicate-free) key sets, the consolidated reference object
holds exactly the union — the concatenation — of all the per-message refs
entries, plus the single templates entry mapping the token u to the
normalized source; with a single message this is that mapping unchanged
except for the added templates entry. -/
theorem grib_consolidation_disjoint_union
    (cs : Scanners) (src src1 : UrlOrFileObj) (it n3 so gf itv gfv sov : PyVal)
    (m : RefMapping) (rest : List RefMapping)
    (hnorm : normalizeSource src FileType.grib = .ok src1)
    (hit : pySubscript0 it = .ok itv)
    (hgf : pySubscript0 gf = .ok gfv)
    (hso : pySubscript0 so = .ok sov)
    (hscan : cs.scanGrib src1 itv gfv sov = m :: rest)
    (hnd : ∀ r ∈ m :: rest, (r.refs.map Prod.fst).Nodup)
    (hdisj : (m :: rest).Pairwise
      (fun x y => ∀ k ∈ y.refs.map Prod.fst, k ∉ x.refs.map Prod.fst)) :
    (open_with_kerchunk cs src FileType.grib it n3 so gf).result =
      .ok ⟨((m :: rest).map RefMapping.refs).flatten, some ("u", src1)⟩ := by
  rw [List.pairwise_cons] at hdisj
  cases rest with
  | nil =>
    simp [open_with_kerchunk, hnorm, hit, hgf, hso, hscan, consolidateGrib]
  | cons r2 rest2 =>
    have hfold := foldl_update_eq_append (r2 :: rest2) m.refs
      (fun r hr => hnd r (by simp [hr]))
      (fun r hr k hk => hdisj.1 r hr k hk)
      hdisj.2
    simp [open_with_kerchunk, hnorm, hit, hgf, hso, hscan, consolidateGrib, hfold]

/-- Witness for grib_consolidation_disjoint_union at a concrete three-message
scan with disjoint keys a, b, c. -/
theorem grib_consolidation_disjoint_union_w :
    (open_with_kerchunk scannersThreeDisjoint (UrlOrFileObj.str "u") FileType.grib
      (PyVal.list [PyScalar.vint 100]) (PyVal.int 100000000)
      (PyVal.list [PyScalar.vnone]) (PyVal.list [PyScalar.vnone])).result =
      .ok ⟨[("a", PyVal.int 1), ("b", PyVal.int 2), ("c", PyVal.int 3)],
        some ("u", UrlOrFileObj.str "u")⟩ := by
  have h := grib_consolidation_disjoint_union scannersThreeDisjoint
    (UrlOrFileObj.str "u") (UrlOrFileObj.str "u")
    (PyVal.list [PyScalar.vint 100]) (PyVal.int 100000000)
    (PyVal.list [PyScalar.vnone]) (PyVal.list [PyScalar.vnone])
    (PyVal.int 100) PyVal.none PyVal.none
    ⟨[("a", PyVal.int 1)], Option.none⟩
    [⟨[("b", PyVal.int 2)], Option.none⟩, ⟨[("c", PyVal.int 3)], Option.none⟩]
    rfl rfl rfl rfl rfl (by decide) (by decide)
  simpa using h

/-- Claim C4, counterexample: for the file types unknown, zarr and opendap,
open_with_kerchunk on a string URL fails by falling through every dispatch
branch to `return ref` with the local variable ref unbound — a NameError —
and not with a dedicated unsupported-file-type error. -/
theorem kerchunk_fall_through_not_dedicated_error :
    open_with_kerchunk scannersNoop (UrlOrFileObj.str "u") FileType.unknown =
      ⟨.error (.nameError "ref"), []⟩ ∧
    open_with_kerchunk scannersNoop (UrlOrFileObj.str "u") FileType.zarr =
      ⟨.error (.nameError "ref"), []⟩ ∧
    open_with_kerchunk scannersNoop (UrlOrFileObj.str "u") FileType.opendap =
      ⟨.error (.nameError "ref"), []⟩ ∧
    (open_with_kerchunk scannersNoop (UrlOrFileObj.str "u") FileType.unknown).result ≠
      .error (.unsupportedFileType FileType.unknown) := by
  decide

/-- Claim C4 (amended): for every file type in unknown, zarr, opendap,
open_with_kerchunk dispatches no scanner and returns no reference mapping:
it always fails, and — except when a non-zarr call passes an FSStore, which
already fails during source normalization — the failure is the NameError
raised by returning the never-assigned local variable ref. -/
theorem kerchunk_unscanned_types_no_dispatch
    (cs : Scanners) (src : UrlOrFileObj) (ft : FileType) (it n3 so gf : PyVal)
    (hft : ft = FileType.unknown ∨ ft = FileType.zarr ∨ ft = FileType.opendap) :
    (open_with_kerchunk cs src ft it n3 so gf).scannerCalls = [] ∧
    (∃ e, (open_with_kerchunk cs src ft it n3 so gf).result = .error e) ∧
    ((src.isFSStore = false ∨ ft = FileType.zarr) →
      (open_with_kerchunk cs src ft it n3 so gf).result = .error (.nameError "ref")) := by
  rcases hft with rfl | rfl | rfl <;> cases src <;>
    first
      | exact ⟨rfl, ⟨_, rfl⟩, fun _ => rfl⟩
      | exact ⟨rfl, ⟨_, rfl⟩, fun h => by
          rcases h with h | h <;> simp_all [UrlOrFileObj.isFSStore]⟩

/-- Witness for kerchunk_unscanned_types_no_dispatch at FileType.opendap on
a handle with no open attribute. -/
theorem kerchunk_unscanned_types_no_dispatch_w :
    (open_with_kerchunk scannersNoop (UrlOrFileObj.plain "h" Option.none)
      FileType.opendap (PyVal.int 100) (PyVal.int 100000000) PyVal.none
      PyVal.none).scannerCalls = [] ∧
    (∃ e, (open_with_kerchunk scannersNoop (UrlOrFileObj.plain "h" Option.none)
      FileType.opendap (PyVal.int 100) (PyVal.int 100000000) PyVal.none
      PyVal.none).result = .error e) ∧
    (open_with_kerchunk scannersNoop (UrlOrFileObj.plain "h" Option.none)
      FileType.opendap (PyVal.int 100) (PyVal.int 100000000) PyVal.none
      PyVal.none).result = .error (.nameError "ref") := by
  have h := kerchunk_unscanned_types_no_dispatch scannersNoop
    (UrlOrFileObj.plain "h" Option.none) FileType.opendap
    (PyVal.int 100) (PyVal.int 100000000) PyVal.none PyVal.none
    (Or.inr (Or.inr rfl))
  exact ⟨h.1, h.2.1, h.2.2 (Or.inl rfl)⟩

/-- Claim C9: open_with_kerchunk subscripts its option parameters before any
scanner runs, and the netcdf4 branch also reads url_or_file_obj.path.  With
the default option values of the source signature every netcdf4, netcdf3 or
grib call (on any non-FSStore source) fails with a TypeError or
AttributeError before any scanner is invoked; and a netcdf4 call on a plain
string URL fails with the AttributeError on path whatever option values are
passed. -/
theorem kerchunk_option_subscripts_fail :
    (∀ (cs : Scanners) (src : UrlOrFileObj) (ft : FileType),
      (ft = FileType.netcdf4 ∨ ft = FileType.netcdf3 ∨ ft = FileType.grib) →
      src.isFSStore = false →
      (open_with_kerchunk cs src ft).scannerCalls = [] ∧
      ∃ e, (open_with_kerchunk cs src ft).result = .error e ∧
        e.isTypeOrAttr = true) ∧
    (∀ (cs : Scanners) (u : String) (it n3 so gf : PyVal),
      (open_with_kerchunk cs (UrlOrFileObj.str u) FileType.netcdf4
        it n3 so gf).result = .error (.attributeError "str" "path") ∧
      (open_with_kerchunk cs (UrlOrFileObj.str u) FileType.netcdf4
        it n3 so gf).scannerCalls = []) := by
  constructor
  · intro cs src ft hft hsrc
    rcases hft with rfl | rfl | rfl <;> cases src <;>
      first
        | exact ⟨rfl, _, rfl, rfl⟩
        | (rename_i i p
           cases p <;> exact ⟨rfl, _, rfl, rfl⟩)
        | simp [UrlOrFileObj.isFSStore] at hsrc
  · intro cs u it n3 so gf
    exact ⟨rfl, rfl⟩

/-- Witness for kerchunk_option_subscripts_fail: a netcdf3 call on a string
URL with all defaults. -/
theorem kerchunk_option_subscripts_fail_w :
    (open_with_kerchunk scannersNoop (UrlOrFileObj.str "u")
      FileType.netcdf3).scannerCalls = [] ∧
    ∃ e, (open_with_kerchunk scannersNoop (UrlOrFileObj.str "u")
      FileType.netcdf3).result = .error e ∧ e.isTypeOrAttr = true :=
  kerchunk_option_subscripts_fail.1 scannersNoop (UrlOrFileObj.str "u")
    FileType.netcdf3 (Or.inr (Or.inl rfl)) rfl

/-- Claim C3: divergence of the copy_to_local guard.  For file_type opendap
with copy_to_local on a file-like handle, open_with_xarray raises KeyError
inside _set_engine (OPENER_MAP has no opendap entry) before the copy guard
runs — and opendap is not even in the evaluated guard list, since the
source expression FileType.zarr or FileType.opendap evaluates to
FileType.zarr alone.  For file_type zarr the claim holds: the guard
ValueError is raised with no temporary file created. -/
theorem copy_to_local_opendap_guard_missed :
    open_with_xarray "tmp" (UrlOrFileObj.iobase "f" Option.none) FileType.opendap
      false true Option.none =
      ⟨.error (.keyError FileType.opendap), [], false⟩ ∧
    FileType.opendap ∉ copyExcludedTypes ∧
    open_with_xarray "tmp" (UrlOrFileObj.iobase "f" Option.none) FileType.zarr
      false true Option.none =
      ⟨.error (.copyWrongType FileType.zarr), [], false⟩ := by
  decide

/-- Claim C7: with a cache collaborator, open_url performs the cache_file
prefetch strictly before the open_file call and returns exactly the handle
open_file produced; without a cache, the handle comes from the filesystem
abstraction _get_opener with the secrets passed through. -/
theorem open_url_prefetch_before_open (fs : FsEnv) (c : CacheObj) (url : String)
    (secrets : PyVal) (okw : Option PyDict) :
    (open_url fs url (some c) secrets okw).2 =
      [FsCall.cacheFile url secrets (okw.getD []), FsCall.openFile url "rb"] ∧
    (open_url fs url (some c) secrets okw).1 = c.openFileResult url "rb" ∧
    (open_url fs url Option.none secrets okw).1 =
      fs.getOpenerResult url secrets (okw.getD []) :=
  ⟨rfl, rfl, rfl⟩

/-- Claim C8: end to end, a URL opened through open_url (no cache) and
passed to open_with_xarray as declared netcdf4 with copy_to_local and
load=false yields a Dataset — backed by the local temporary path, with the
canonical engine resolved, not eagerly loaded — and exactly one warning is
emitted: the copied-locally-but-not-loaded advisory. -/
theorem open_url_then_xarray_copy_single_warning
    (fs : FsEnv) (url tmp : String)
    (h1 : (fs.getOpenerResult url PyVal.none []).isStr = false)
    (h2 : (fs.getOpenerResult url PyVal.none []).isFSStore = false) :
    open_with_xarray tmp (open_url fs url).1 FileType.netcdf4 false true
      Option.none =
      ⟨.ok ⟨UrlOrFileObj.str tmp, [("engine", PyVal.str "h5netcdf")], false⟩,
       [Warn.localCopyNotLoaded], true⟩ := by
  have hh : (open_url fs url).1 = fs.getOpenerResult url PyVal.none [] := rfl
  rw [hh]
  cases hobj : fs.getOpenerResult url PyVal.none [] with
  | str u =>
    rw [hobj] at h1
    simp [UrlOrFileObj.isStr] at h1
  | fsstore i =>
    rw [hobj] at h2
    simp [UrlOrFileObj.isFSStore] at h2
  | iobase i p => rfl
  | withOpen i p => rfl
  | plain i p => rfl

/-- Witness for open_url_then_xarray_copy_single_warning with a concrete
filesystem collaborator yielding a file-like handle. -/
theorem open_url_then_xarray_copy_single_warning_w :
    open_with_xarray "tmp" (open_url fsEnvFileHandle "u").1 FileType.netcdf4
      false true Option.none =
      ⟨.ok ⟨UrlOrFileObj.str "tmp", [("engine", PyVal.str "h5netcdf")], false⟩,
       [Warn.localCopyNotLoaded], true⟩ :=
  open_url_then_xarray_copy_single_warning fsEnvFileHandle "u" "tmp" rfl rfl

end Openers
